import Mathlib

/-!
Verification of nodejs-processor/main.js.

A shallow embedding of the health-check service in `src/nodejs-processor/main.js`
and of the parts of the JavaScript runtime it relies on.

The file has three layers of definitions.

* JavaScript values: truthiness, `||`, template-literal conversion, `process.env`.
* The process: standard output, exit status, the `console.log` / `process.exit`
  effects and the registered signal listeners.
* The HTTP application: the layer stack built by `app.use` / `app.get`, and the
  request dispatch of the web framework the program is written against.
-/

namespace NodejsProcessor

/-! ## JavaScript values -/

/-- The JavaScript values that occur in `main.js`: `undefined` (a missing
`process.env` property), numbers (integer-valued ones only) and strings. -/
inductive JSValue where
  | undefined
  | num (n : Int)
  | str (s : String)
  deriving DecidableEq, Repr

/-- JavaScript `ToBoolean`: `undefined`, `0` and the empty string are falsy,
every other value of the three kinds is truthy. -/
def truthy : JSValue → Bool
  | .undefined => false
  | .num n => n != 0
  | .str s => s != ""

/-- The operator `a || b`: the left operand if it is truthy, else the right one.
The operand itself is returned, not a boolean. -/
def jsOr (a b : JSValue) : JSValue :=
  if truthy a then a else b

/-- Conversion of a value inside a template literal (JavaScript `ToString`).
Numbers are integer-valued here and print in decimal. -/
def toStr : JSValue → String
  | .undefined => "undefined"
  | .num n => toString n
  | .str s => s

/-- The environment of the process: `process.env` maps a name to a string,
or the name is not defined. -/
abbrev Env := String → Option String

/-- Property access `process.env[name]`: a string, or `undefined`. -/
def envGet (env : Env) (name : String) : JSValue :=
  match env name with
  | none => .undefined
  | some s => .str s

/-- The environment in which only `PORT` may be defined. -/
def envWithPort (port : Option String) : Env :=
  fun name => if name = "PORT" then port else none

/-- Line 3 of main.js: `const PORT = process.env.PORT || 8002;` -/
def PORT (env : Env) : JSValue :=
  jsOr (envGet env "PORT") (.num 8002)

/-- The value of a string of decimal digits, read left to right;
`none` when the string is empty or holds another character. -/
def decimalValue (s : String) : Option Nat :=
  if s.data ≠ [] ∧ s.data.all Char.isDigit then
    some (s.data.foldl (fun n c => n * 10 + (c.toNat - '0'.toNat)) 0)
  else none

/-- Specification of the configured port, written as a case distinction on the
environment value rather than with the operator of line 3: a defined, non-empty
string is kept as it is; an undefined value or the empty string gives 8002. -/
def configuredPortByCases (port : Option String) : JSValue :=
  match port with
  | some s => if s ≠ "" then .str s else .num 8002
  | none => .num 8002

/-- A port argument denotes the TCP port `p` when it is the number `p`, or a
string of decimal digits whose value is `p` (the runtime converts a numeric
string port to its number before binding). -/
def denotesPort (v : JSValue) (p : Nat) : Prop :=
  match v with
  | .undefined => False
  | .num n => n = (p : Int)
  | .str s => decimalValue s = some p

/-! ## The process -/

/-- Whether the process is alive, or has ended with an exit code. -/
inductive ProcStatus where
  | running
  | exited (code : Int)
  deriving DecidableEq, Repr

/-- The observable state of the process: its status and the lines written to
standard output so far, oldest first. -/
structure Process where
  status : ProcStatus
  stdout : List String
  deriving DecidableEq, Repr

/-- A freshly started process. -/
def Process.start : Process :=
  { status := .running, stdout := [] }

/-- The runtime calls made inside the callbacks of main.js. -/
inductive Effect where
  /-- The call `console.log(line)`. -/
  | log (line : String)
  /-- The call `process.exit(code)`. -/
  | exit (code : Int)
  deriving DecidableEq, Repr

/-- One runtime call: `console.log` appends a line to standard output,
`process.exit` ends the process with the given code. -/
def Effect.step : Effect → Process → Process
  | .log line, p => { p with stdout := p.stdout ++ [line] }
  | .exit code, p => { p with status := .exited code }

/-- Runs the statements of a callback in order. `process.exit` does not return:
once the process has exited, the remaining statements are not executed. -/
def runEffects : List Effect → Process → Process
  | [], p => p
  | e :: rest, p =>
    match p.status with
    | .running => runEffects rest (e.step p)
    | .exited _ => p

/-- The state after each executed statement of a callback, in order. -/
def runTrace : List Effect → Process → List Process
  | [], _ => []
  | e :: rest, p =>
    match p.status with
    | .running => e.step p :: runTrace rest (e.step p)
    | .exited _ => []

/-! ## Startup: lines 15-18 of main.js -/

/-- The callback handed to `app.listen`: two `console.log` calls whose template
literals interpolate `PORT`. -/
def onListening (env : Env) : List Effect :=
  [ .log ("Node.js Processor server is running on http://0.0.0.0:" ++ toStr (PORT env)),
    .log ("Health check: http://localhost:" ++ toStr (PORT env) ++ "/health") ]

/-- The arguments of a call to `app.listen`. -/
structure ListenCall where
  port : JSValue
  host : String
  callback : List Effect
  deriving DecidableEq, Repr

/-- The call `app.listen(PORT, '0.0.0.0', () => ...)` of main.js. -/
def listenCall (env : Env) : ListenCall :=
  { port := PORT env, host := "0.0.0.0", callback := onListening env }

/-! ## Shutdown: lines 21-29 of main.js -/

/-- The listener registered by `process.on('SIGTERM', ...)`. -/
def onSIGTERM : List Effect :=
  [ .log "SIGTERM received, shutting down gracefully", .exit 0 ]

/-- The listener registered by `process.on('SIGINT', ...)`. -/
def onSIGINT : List Effect :=
  [ .log "SIGINT received, shutting down gracefully", .exit 0 ]

/-- The listeners registered through `process.on`, by signal name. -/
def signalListeners : List (String × List Effect) :=
  [ ("SIGTERM", onSIGTERM), ("SIGINT", onSIGINT) ]

/-- The listener registered for a signal, if there is one. -/
def listenerFor (signal : String) : Option (List Effect) :=
  signalListeners.lookup signal

/-- Delivery of a signal that has a listener: the listener runs. A signal
without a listener is left to the operating system and returns `none`. -/
def deliver (signal : String) (p : Process) : Option Process :=
  (listenerFor signal).map (fun cb => runEffects cb p)

/-- The states the process passes through while the listener of a signal runs. -/
def deliverTrace (signal : String) (p : Process) : Option (List Process) :=
  (listenerFor signal).map (fun cb => runTrace cb p)

/-! ## HTTP requests and responses -/

/-- HTTP request methods. -/
inductive Method where
  | GET | HEAD | POST | PUT | DELETE | PATCH | OPTIONS
  deriving DecidableEq, Repr

/-- The reason for which a body parser fails a request. -/
inductive Rejection where
  /-- Status 400: the body cannot be parsed, or its transfer was broken. -/
  | badRequest
  /-- Status 413: the body, or its number of parameters, is over the limit. -/
  | tooLarge
  /-- Status 415: the charset or the content encoding is not supported. -/
  | unsupported
  deriving DecidableEq, Repr

/-- The HTTP status a body parser attaches to a rejection. -/
def Rejection.status : Rejection → Nat
  | .badRequest => 400
  | .tooLarge => 413
  | .unsupported => 415

/-- The decoded text of a body whose content type is JSON: no text at all, an
object or array, a well-formed value that is neither (such as `123`), or text
that is not JSON. -/
inductive JsonText where
  | empty
  | container
  | primitive
  | malformed
  deriving DecidableEq, Repr

/-- The body of a request as the two body parsers see it.
* `none`: the request has no body.
* `json early text`: the content type is JSON; `early` is a rejection raised
  before the text is parsed (charset, content encoding, size), `text` the
  decoded text.
* `urlencoded verdict`: the content type is URL-encoded form data; `verdict` is
  the rejection of the form parser, if it rejects the body. Text with invalid
  percent escapes is not rejected.
* `other`: a body of another content type, which neither parser reads. -/
inductive Payload where
  | none
  | json (early : Option Rejection) (text : JsonText)
  | urlencoded (verdict : Option Rejection)
  | other
  deriving DecidableEq, Repr

/-- The conditional headers of a request (`If-None-Match`, `If-Modified-Since`)
as the framework judges them against the validators of the response it is
about to send: there are none, they are satisfied (for instance
`If-None-Match: *` alone), or they are not (for instance a tag that does not
match, or any of them together with `Cache-Control: no-cache`). -/
inductive Conditional where
  | absent
  | fresh
  | stale
  deriving DecidableEq, Repr

/-- An incoming request that reaches the application. `path` is the path of the
URL without the query string; `conditional` and `payload` stand for the
conditional headers and for the content type and body; `headers` are the
remaining headers. -/
structure Request where
  method : Method
  path : String
  query : String
  headers : List (String × String)
  conditional : Conditional
  payload : Payload
  deriving DecidableEq, Repr

/-- The body of a response as sent: nothing, a JSON object (its fields in
order), the list of allowed methods the router sends for OPTIONS, or the page
of the default error handler. -/
inductive ResBody where
  | empty
  | json (fields : List (String × JSValue))
  | methods (allowed : List Method)
  | errorPage
  deriving DecidableEq, Repr

/-- The response object `res`: status code, the methods of the `Allow` header
(empty when the header is not set) and body. -/
structure Res where
  statusCode : Nat
  allow : List Method
  body : ResBody
  deriving DecidableEq, Repr

/-- Modelled from the spec: the response object the framework hands to a
handler is not under src/. Section 4.2 gives the health route status 200
without the handler setting one: the status code of a new response is 200. -/
def freshRes : Res :=
  { statusCode := 200, allow := [], body := .empty }

/-- Modelled from the spec: the freshness check of the framework is not under
src/ (section 9: the framework's defaults apply). A request is fresh when its
method is GET or HEAD, the status of the response is 2xx or 304, and its
conditional headers are satisfied. -/
def isFresh (req : Request) (res : Res) : Bool :=
  (req.method == .GET || req.method == .HEAD) &&
    ((200 ≤ res.statusCode && res.statusCode < 300) || res.statusCode == 304) &&
    req.conditional == .fresh

/-- Modelled from the spec: the method `res.json(obj)` of the framework is not
under src/ (section 4.2: the route answers with a JSON body). It sends `obj`
as JSON through the framework's `send`: for a fresh request the status becomes
304 and no body is sent; for a HEAD request the status is kept and no body is
sent; otherwise the status is kept and the body is the JSON object. The
request is the one the response object belongs to. -/
def Res.json (res : Res) (req : Request) (obj : List (String × JSValue)) : Res :=
  if isFresh req res then
    { res with statusCode := 304, body := .empty }
  else if req.method = .HEAD then
    { res with body := .empty }
  else
    { res with body := .json obj }

/-! ## The application: lines 5-12 of main.js -/

/-- The handler of `app.get('/health', (req, res) => ...)`: its body is the one
statement `res.json({ code: 0, message: 'success' })`. The handler does not
read `req`; it is passed on as the request `res` belongs to. -/
def healthHandler (req : Request) (res : Res) : Res :=
  res.json req [("code", .num 0), ("message", .str "success")]

/-- What a middleware does with a request: hands it on with `next()`, fails it
with `next(err)` where `err` carries an HTTP status, or lets an exception
escape the router, which ends the process. -/
inductive MiddlewareResult where
  | next
  | error (status : Nat)
  | uncaught
  deriving DecidableEq, Repr

/-- Modelled from the spec: `express.json()`, the JSON body parser of the web
framework, is not under src/. Section 4.1: a request with a body is decoded if
its content type indicates JSON, and a malformed body fails the request with a
client-error status rather than crashing the process. With the default options
of line 6: a rejection raised before parsing fails the request with its status
(415 or 413); text that is not JSON, and text that is not an object or array,
fail it with 400; an empty body and an object or array are accepted. -/
def jsonParser (req : Request) : MiddlewareResult :=
  match req.payload with
  | .json (some r) _ => .error r.status
  | .json none .malformed => .error 400
  | .json none .primitive => .error 400
  | _ => .next

/-- Modelled from the spec: `express.urlencoded({ extended: true })`, the form
body parser of the web framework, is not under src/. Section 4.1: a request with
a body is decoded if its content type indicates URL-encoded form data, and a
body the parser rejects fails the request with a client-error status rather
than crashing the process: the status of the rejection (413, 415 or 400). -/
def urlencodedParser (req : Request) : MiddlewareResult :=
  match req.payload with
  | .urlencoded (some r) => .error r.status
  | _ => .next

/-- An entry of the layer stack of the application. -/
inductive Layer where
  /-- The call `app.use(middleware)`: runs for every method and path. -/
  | use (middleware : Request → MiddlewareResult)
  /-- The call `app.get(path, handler)`: a route for method GET. -/
  | get (path : String) (handler : Request → Res → Res)

/-- The layer stack main.js builds, in registration order: lines 6, 7 and 10. -/
def app : List Layer :=
  [ .use jsonParser, .use urlencodedParser, .get "/health" healthHandler ]

/-- The route table of a layer stack: method and path of every route. -/
def routes : List Layer → List (Method × String)
  | [] => []
  | .use _ :: rest => routes rest
  | .get path _ :: rest => (Method.GET, path) :: routes rest

/-! ## Request dispatch -/

/-- Modelled from the spec: the path matching of the framework's router is not
under src/. Section 9 asks for the framework's conventional defaults; main.js
enables neither case-sensitive nor strict routing, and by default the router
compares a route path with the request path without regard to the case of
ASCII letters and accepts one trailing slash. -/
def pathMatches (route path : String) : Bool :=
  let r := route.data.map Char.toLower
  let p := path.data.map Char.toLower
  p == r || p == r ++ ['/']

/-- Modelled from the spec: which methods a GET route of the framework serves
is not under src/. The framework serves HEAD from a GET route when the route
has no HEAD handler of its own. -/
def getRouteServes (m : Method) : Bool :=
  m == .GET || m == .HEAD

/-- The result of dispatching a request: the response, or `none` when an
exception escaped and nothing was sent, and the paths of the routes whose
handlers ran. -/
structure Outcome where
  response : Option Res
  ran : List String
  deriving DecidableEq, Repr

/-- Modelled from the spec: the status the framework's default error handler
gives an error is not under src/. It is the status the error carries when that
is an error status (400 to 599), and 500 otherwise. -/
def errorStatus (status : Nat) : Nat :=
  if 400 ≤ status ∧ status < 600 then status else 500

/-- Modelled from the spec: the framework's default handler is not under src/.
Section 7: a request no route answers gets the default not-found response, a
request a body parser fails a client-error response. It sends the given status
with its own page, and no body for a HEAD request. -/
def defaultResponse (req : Request) (status : Nat) : Res :=
  { statusCode := status, allow := [],
    body := if req.method = .HEAD then .empty else .errorPage }

/-- Modelled from the spec: the router's own answer to an OPTIONS request is not
under src/ (section 9: method mismatch follows the framework's defaults). When
the path matched routes that do not handle OPTIONS, the router answers 200 and
lists the methods those routes serve in the `Allow` header and in the body. -/
def optionsResponse (allowed : List Method) : Res :=
  { statusCode := 200, allow := allowed, body := .methods allowed }

/-- Modelled from the spec: the router of the web framework is not under src/.
Section 4.1: requests are dispatched to the matching route handler; section 7:
a request no route matches gets the default not-found response, and a request
a body parser fails gets a client-error response; section 9: method mismatch
follows the framework's defaults. Layers are tried in registration order. A
middleware error ends the dispatch with the default error response; an
exception that escapes ends it with no response. A route whose path matches
but which does not serve the method is skipped; for OPTIONS its methods are
collected in `allow` and answered by the router at the end. The handler of
main.js never calls `next`, so dispatch stops after it. -/
def dispatch : List Layer → Request → List Method → Outcome
  | [], req, allow =>
    if req.method = .OPTIONS ∧ allow ≠ [] then
      { response := some (optionsResponse allow), ran := [] }
    else
      { response := some (defaultResponse req 404), ran := [] }
  | .use middleware :: rest, req, allow =>
    match middleware req with
    | .error status =>
      { response := some (defaultResponse req (errorStatus status)), ran := [] }
    | .uncaught => { response := none, ran := [] }
    | .next => dispatch rest req allow
  | .get path handler :: rest, req, allow =>
    if pathMatches path req.path then
      if getRouteServes req.method then
        { response := some (handler req freshRes), ran := [path] }
      else if req.method = .OPTIONS then
        dispatch rest req (allow ++ [.GET, .HEAD])
      else
        dispatch rest req allow
    else
      dispatch rest req allow

/-- The outcome of the application for a request. -/
def handle (req : Request) : Outcome :=
  dispatch app req []

/-- The status with which one of the two body parsers of lines 6 and 7 fails
the request, or `none` when both hand it on. -/
def parserFailure (req : Request) : Option Nat :=
  match jsonParser req with
  | .error status => some status
  | _ =>
    match urlencodedParser req with
    | .error status => some status
    | _ => none

/-- Modelled from the spec: how the runtime serves a request with a layer stack
is not under src/ (section 8: a request that fails must not crash the process).
A running process dispatches the request; when a response comes out it is sent
and the process is left as it was, since no layer writes to the process; when
an exception escaped, the process ends with exit code 1 and nothing is sent. A
process that has exited answers nothing. -/
def serve (layers : List Layer) (p : Process) (req : Request) : Process × Option Res :=
  match p.status with
  | .exited _ => (p, none)
  | .running =>
    match (dispatch layers req []).response with
    | some res => (p, some res)
    | none => ({ p with status := .exited 1 }, none)

/-! ## Decimal digits -/

theorem digitChar_value : ∀ k, k < 10 → (Nat.digitChar k).toNat - '0'.toNat = k := by
  decide

theorem digitChar_isDigit : ∀ k, k < 10 → (Nat.digitChar k).isDigit = true := by
  decide

theorem toDigitsCore_all_isDigit (fuel : Nat) :
    ∀ (n : Nat) (ds : List Char), ds.all Char.isDigit = true →
      (Nat.toDigitsCore 10 fuel n ds).all Char.isDigit = true := by
  induction fuel with
  | zero => intro n ds h; simpa [Nat.toDigitsCore] using h
  | succ fuel ih =>
    intro n ds h
    have hd : (Nat.digitChar (n % 10)).isDigit = true :=
      digitChar_isDigit _ (Nat.mod_lt _ (by decide))
    have hcons : (Nat.digitChar (n % 10) :: ds).all Char.isDigit = true := by
      simp only [List.all_cons, hd, h, Bool.and_self]
    unfold Nat.toDigitsCore
    by_cases hz : n / 10 = 0
    · simpa [hz] using hcons
    · simpa [hz] using ih (n / 10) _ hcons

theorem toDigitsCore_ne_nil (fuel n : Nat) (ds : List Char) :
    Nat.toDigitsCore 10 (fuel + 1) n ds ≠ [] := by
  induction fuel generalizing n ds with
  | zero =>
    unfold Nat.toDigitsCore
    by_cases hz : n / 10 = 0 <;> simp [hz, Nat.toDigitsCore]
  | succ fuel ih =>
    unfold Nat.toDigitsCore
    by_cases hz : n / 10 = 0
    · simp [hz]
    · simpa [hz] using ih (n / 10) _

theorem toDigitsCore_foldl (fuel : Nat) :
    ∀ (n : Nat) (ds : List Char), n < fuel →
      (Nat.toDigitsCore 10 fuel n ds).foldl (fun n c => n * 10 + (c.toNat - '0'.toNat)) 0
        = ds.foldl (fun n c => n * 10 + (c.toNat - '0'.toNat)) n := by
  induction fuel with
  | zero => intro n ds h; omega
  | succ fuel ih =>
    intro n ds h
    have hv := digitChar_value (n % 10) (Nat.mod_lt _ (by decide))
    unfold Nat.toDigitsCore
    by_cases hz : n / 10 = 0
    · have hn : n % 10 = n := by omega
      simp only [hz, if_true, List.foldl_cons, hv]
      rw [hn]; simp
    · have hlt : n / 10 < fuel := by omega
      simp only [hz, if_false]
      rw [ih (n / 10) _ hlt]
      simp only [List.foldl_cons, hv]
      have : n / 10 * 10 + n % 10 = n := by omega
      rw [this]

theorem decimalValue_toString (p : Nat) : decimalValue (toString p) = some p := by
  have hdata : (toString p).data = Nat.toDigitsCore 10 (p + 1) p [] := rfl
  unfold decimalValue
  rw [hdata]
  have h1 := toDigitsCore_ne_nil p p []
  have h2 := toDigitsCore_all_isDigit (p + 1) p [] (by simp)
  have h3 := toDigitsCore_foldl (p + 1) p [] (by omega)
  simp only [h1, h2, h3, ne_eq, not_false_eq_true, and_self, if_true, List.foldl_nil]

/-! ## Dispatch lemmas -/

theorem errorStatus_rejection (r : Rejection) : errorStatus r.status = r.status := by
  cases r <;> decide

theorem parserFailure_status (req : Request) (s : Nat) (h : parserFailure req = some s) :
    s = 400 ∨ s = 413 ∨ s = 415 := by
  unfold parserFailure jsonParser urlencodedParser at h
  rcases hp : req.payload with _ | ⟨_ | r, t⟩ | ⟨_ | r⟩ | _
  · simp [hp] at h
  · cases t <;> simp [hp] at h <;> omega
  · cases r <;> cases t <;> simp [hp, Rejection.status] at h <;> omega
  · simp [hp] at h
  · cases r <;> simp [hp, Rejection.status] at h <;> omega
  · simp [hp] at h

theorem handle_of_failure (req : Request) (s : Nat) (h : parserFailure req = some s) :
    handle req = { response := some (defaultResponse req s), ran := [] } := by
  unfold parserFailure jsonParser urlencodedParser at h
  rcases hp : req.payload with _ | ⟨_ | r, t⟩ | ⟨_ | r⟩ | _
  · simp [hp] at h
  · cases t <;> simp [hp] at h <;> subst h <;>
      simp [handle, app, dispatch, jsonParser, hp, errorStatus]
  · cases t <;> simp [hp] at h <;> subst h <;>
      simp [handle, app, dispatch, jsonParser, hp, errorStatus_rejection]
  · simp [hp] at h
  · simp [hp] at h
    subst h
    simp [handle, app, dispatch, jsonParser, urlencodedParser, hp, errorStatus_rejection]
  · simp [hp] at h

theorem handle_of_accept (req : Request) (h : parserFailure req = none) :
    handle req = dispatch [.get "/health" healthHandler] req [] := by
  unfold parserFailure jsonParser urlencodedParser at h
  rcases hp : req.payload with _ | ⟨_ | r, t⟩ | ⟨_ | r⟩ | _
  · simp [handle, app, dispatch, jsonParser, urlencodedParser, hp]
  · cases t <;> simp [hp] at h <;>
      simp [handle, app, dispatch, jsonParser, urlencodedParser, hp]
  · cases t <;> simp [hp] at h
  · simp [handle, app, dispatch, jsonParser, urlencodedParser, hp]
  · simp [hp] at h
  · simp [handle, app, dispatch, jsonParser, urlencodedParser, hp]

theorem route_unmatched (req : Request) (hm : pathMatches "/health" req.path = false) :
    dispatch [.get "/health" healthHandler] req []
      = { response := some (defaultResponse req 404), ran := [] } := by
  simp [dispatch, hm]

theorem route_served (req : Request) (hm : pathMatches "/health" req.path = true)
    (hs : getRouteServes req.method = true) :
    dispatch [.get "/health" healthHandler] req []
      = { response := some (healthHandler req freshRes), ran := ["/health"] } := by
  simp [dispatch, hm, hs]

theorem route_options (req : Request) (hm : pathMatches "/health" req.path = true)
    (ho : req.method = .OPTIONS) :
    dispatch [.get "/health" healthHandler] req []
      = { response := some (optionsResponse [.GET, .HEAD]), ran := [] } := by
  have hs : getRouteServes Method.OPTIONS = false := rfl
  simp [dispatch, hm, hs, ho]

theorem route_other_method (req : Request) (hs : getRouteServes req.method = false)
    (ho : req.method ≠ .OPTIONS) :
    dispatch [.get "/health" healthHandler] req []
      = { response := some (defaultResponse req 404), ran := [] } := by
  cases hm : pathMatches "/health" req.path <;> simp [dispatch, hm, hs, ho]

theorem handle_ran_cases (req : Request) :
    (handle req).ran = [] ∨
      ((handle req).ran = ["/health"] ∧
        (handle req).response = some (healthHandler req freshRes) ∧
        parserFailure req = none ∧ pathMatches "/health" req.path = true ∧
        getRouteServes req.method = true) := by
  cases hb : parserFailure req with
  | some s => left; rw [handle_of_failure req s hb]
  | none =>
    rw [handle_of_accept req hb]
    cases hm : pathMatches "/health" req.path with
    | false => left; rw [route_unmatched req hm]
    | true =>
      cases hs : getRouteServes req.method with
      | true => right; rw [route_served req hm hs]; simp
      | false =>
        left
        by_cases ho : req.method = .OPTIONS
        · rw [route_options req hm ho]
        · rw [route_other_method req hs ho]

theorem handle_answers (req : Request) : ∃ res, (handle req).response = some res := by
  cases hb : parserFailure req with
  | some s => exact ⟨_, by rw [handle_of_failure req s hb]⟩
  | none =>
    rw [handle_of_accept req hb]
    cases hm : pathMatches "/health" req.path with
    | false => exact ⟨_, by rw [route_unmatched req hm]⟩
    | true =>
      cases hs : getRouteServes req.method with
      | true => exact ⟨_, by rw [route_served req hm hs]⟩
      | false =>
        by_cases ho : req.method = .OPTIONS
        · exact ⟨_, by rw [route_options req hm ho]⟩
        · exact ⟨_, by rw [route_other_method req hs ho]⟩

theorem serve_running (p : Process) (req : Request) (res : Res) (hr : p.status = .running)
    (h : (handle req).response = some res) : serve app p req = (p, some res) := by
  have h1 : (dispatch app req []).response = some res := h
  simp [serve, hr, h1]

theorem serve_uncaught_exits (p : Process) (req : Request) (hr : p.status = .running) :
    serve [.use (fun _ => .uncaught)] p req = ({ p with status := .exited 1 }, none) := by
  simp [serve, hr, dispatch]

/-! ## Configuration -/

theorem toString_nat_ne_empty (p : Nat) : (toString p : String) ≠ "" := by
  intro h
  have hdata : (toString p).data = Nat.toDigitsCore 10 (p + 1) p [] := rfl
  rw [h] at hdata
  exact toDigitsCore_ne_nil p p [] hdata.symm

theorem PORT_of_unset (env : Env) (h : env "PORT" = none) : PORT env = .num 8002 := by
  simp [PORT, envGet, h, jsOr, truthy]

theorem PORT_of_empty (env : Env) (h : env "PORT" = some "") : PORT env = .num 8002 := by
  simp [PORT, envGet, h, jsOr, truthy]

theorem PORT_of_nonempty (env : Env) (s : String) (h : env "PORT" = some s) (hs : s ≠ "") :
    PORT env = .str s := by
  simp [PORT, envGet, h, jsOr, truthy, hs]

/-- C2 (counterexample): with PORT set to "abc", which is not the text of an
integer, the port passed to listen is the string "abc", not the default 8002. -/
theorem port_unparsable_counterexample :
    decimalValue "abc" = none ∧
    (listenCall (envWithPort (some "abc"))).port = .str "abc" ∧
    (listenCall (envWithPort (some "abc"))).port ≠ .num 8002 := by
  decide

/-- C2 (amended): the port passed to listen is the literal default 8002 exactly
when PORT is unset or is the empty string; every other value, parsable as an
integer or not, is passed to listen as the string it is. -/
theorem port_default_iff_unset_or_empty (env : Env) :
    ((listenCall env).port = .num 8002 ↔ (env "PORT" = none ∨ env "PORT" = some "")) ∧
    (∀ s, env "PORT" = some s → s ≠ "" → (listenCall env).port = .str s) := by
  refine ⟨?_, fun s h hs => PORT_of_nonempty env s h hs⟩
  show PORT env = .num 8002 ↔ _
  constructor
  · intro h
    cases hv : env "PORT" with
    | none => exact Or.inl rfl
    | some s =>
      by_cases hs : s = ""
      · right; rw [hs]
      · rw [PORT_of_nonempty env s hv hs] at h
        cases h
  · rintro (h | h)
    · exact PORT_of_unset env h
    · exact PORT_of_empty env h

theorem port_default_iff_unset_or_empty_witness :
    envWithPort (some "abc") "PORT" = some "abc" ∧ "abc" ≠ "" ∧
    (listenCall (envWithPort (some "abc"))).port = .str "abc" :=
  ⟨by decide, by decide,
    (port_default_iff_unset_or_empty (envWithPort (some "abc"))).2 "abc" (by decide)
      (by decide)⟩

/-- C3: when the environment variable PORT is absent, the port passed to listen
is the number 8002. -/
theorem port_absent_is_8002 (env : Env) (h : env "PORT" = none) :
    (listenCall env).port = .num 8002 ∧ denotesPort (listenCall env).port 8002 := by
  have hp : (listenCall env).port = .num 8002 := PORT_of_unset env h
  refine ⟨hp, ?_⟩
  rw [hp]
  simp [denotesPort]

theorem port_absent_is_8002_witness :
    envWithPort none "PORT" = none ∧
    ((listenCall (envWithPort none)).port = .num 8002 ∧
      denotesPort (listenCall (envWithPort none)).port 8002) :=
  ⟨by decide, port_absent_is_8002 (envWithPort none) (by decide)⟩

/-- C4: for every valid port number p, when PORT is set to the decimal text of
p, the port passed to listen is that text, it denotes p, it is not the default
literal 8002, and unless p is 8002 it does not denote 8002. -/
theorem port_from_decimal_text (env : Env) (p : Nat) (_ : p ≤ 65535)
    (h : env "PORT" = some (toString p)) :
    (listenCall env).port = .str (toString p) ∧
    denotesPort (listenCall env).port p ∧
    (listenCall env).port ≠ .num 8002 ∧
    (p ≠ 8002 → ¬ denotesPort (listenCall env).port 8002) := by
  have hp : (listenCall env).port = .str (toString p) :=
    PORT_of_nonempty env _ h (toString_nat_ne_empty p)
  rw [hp]
  refine ⟨rfl, ?_, ?_, ?_⟩
  · exact decimalValue_toString p
  · intro hc; cases hc
  · intro hne hd
    have h1 : decimalValue (toString p) = some 8002 := hd
    rw [decimalValue_toString p] at h1
    exact hne (Option.some.inj h1)

theorem port_from_decimal_text_witness :
    (9001 ≤ 65535 ∧ envWithPort (some "9001") "PORT" = some (toString 9001)) ∧
    ((listenCall (envWithPort (some "9001"))).port = .str (toString 9001) ∧
      denotesPort (listenCall (envWithPort (some "9001"))).port 9001 ∧
      (listenCall (envWithPort (some "9001"))).port ≠ .num 8002 ∧
      (9001 ≠ 8002 → ¬ denotesPort (listenCall (envWithPort (some "9001"))).port 8002)) :=
  ⟨⟨by decide, by decide⟩,
    port_from_decimal_text (envWithPort (some "9001")) 9001 (by decide) (by decide)⟩

/-- C9: the configured PORT is the environment string itself when PORT is
defined and non-empty (no parsing, trimming or range check), and the number
8002 otherwise; PORT="" gives 8002 and PORT="0" gives the string "0". -/
theorem PORT_by_cases (env : Env) :
    PORT env = configuredPortByCases (env "PORT") ∧
    (∀ s, env "PORT" = some s → s ≠ "" → PORT env = .str s) ∧
    PORT (envWithPort (some "")) = .num 8002 ∧
    PORT (envWithPort none) = .num 8002 ∧
    PORT (envWithPort (some "0")) = .str "0" ∧
    PORT (envWithPort (some " 80 ")) = .str " 80 " ∧
    PORT (envWithPort (some "99999")) = .str "99999" ∧
    PORT (envWithPort (some "abc")) = .str "abc" := by
  refine ⟨?_, fun s h hs => PORT_of_nonempty env s h hs, by decide, by decide, by decide,
    by decide, by decide, by decide⟩
  cases hv : env "PORT" with
  | none => rw [PORT_of_unset env hv]; rfl
  | some s =>
    by_cases hs : s = ""
    · subst hs
      rw [PORT_of_empty env hv]; rfl
    · rw [PORT_of_nonempty env s hv hs]
      simp [configuredPortByCases, hs]

theorem PORT_by_cases_witness :
    envWithPort (some "9001") "PORT" = some "9001" ∧ "9001" ≠ "" ∧
    PORT (envWithPort (some "9001")) = .str "9001" :=
  ⟨by decide, by decide,
    (PORT_by_cases (envWithPort (some "9001"))).2.1 "9001" (by decide) (by decide)⟩

/-! ## Startup and shutdown -/

/-- C7: listen is called with host 0.0.0.0 and the configured PORT, and its
callback writes exactly two lines, in order: the running message ending in the
base URL http://0.0.0.0:PORT, then the health-check line with the URL
http://localhost:PORT/health, both with the PORT passed to listen: the text of
the environment string when PORT is set and non-empty, and 8002 otherwise. -/
theorem listen_and_startup_log (env : Env) (p : Process) (hr : p.status = .running) :
    (listenCall env).host = "0.0.0.0" ∧
    (listenCall env).port = PORT env ∧
    (listenCall env).callback.length = 2 ∧
    runEffects (listenCall env).callback p =
      { status := .running,
        stdout := p.stdout ++
          [ "Node.js Processor server is running on " ++
              ("http://0.0.0.0:" ++ toStr (listenCall env).port),
            "Health check: " ++
              ("http://localhost:" ++ toStr (listenCall env).port ++ "/health") ] } ∧
    (∀ s, env "PORT" = some s → s ≠ "" →
      (listenCall env).port = .str s ∧
      runEffects (listenCall env).callback p =
        { status := .running,
          stdout := p.stdout ++
            [ "Node.js Processor server is running on http://0.0.0.0:" ++ s,
              "Health check: http://localhost:" ++ s ++ "/health" ] }) ∧
    ((env "PORT" = none ∨ env "PORT" = some "") →
      (listenCall env).port = .num 8002 ∧
      runEffects (listenCall env).callback p =
        { status := .running,
          stdout := p.stdout ++
            [ "Node.js Processor server is running on http://0.0.0.0:8002",
              "Health check: http://localhost:8002/health" ] }) := by
  have h1 : "Node.js Processor server is running on http://0.0.0.0:"
      = "Node.js Processor server is running on " ++ "http://0.0.0.0:" := by decide
  have h2 : "Health check: http://localhost:" = "Health check: " ++ "http://localhost:" := by
    decide
  have hrun : runEffects (listenCall env).callback p =
      { status := .running,
        stdout := p.stdout ++
          [ "Node.js Processor server is running on http://0.0.0.0:" ++ toStr (PORT env),
            "Health check: http://localhost:" ++ toStr (PORT env) ++ "/health" ] } := by
    simp only [listenCall, onListening, runEffects, hr, Effect.step, List.append_assoc,
      List.singleton_append]
  refine ⟨rfl, rfl, rfl, ?_, ?_, ?_⟩
  · rw [hrun]
    show _ = ({ status := .running, stdout := p.stdout ++
      [ "Node.js Processor server is running on " ++ ("http://0.0.0.0:" ++ toStr (PORT env)),
        "Health check: " ++ ("http://localhost:" ++ toStr (PORT env) ++ "/health") ] }
        : Process)
    rw [h1, h2]
    simp only [String.append_assoc]
  · intro s hs hne
    have hp : PORT env = .str s := PORT_of_nonempty env s hs hne
    refine ⟨hp, ?_⟩
    rw [hrun, hp]
    rfl
  · intro h
    have hp : PORT env = .num 8002 := by
      rcases h with h | h
      · exact PORT_of_unset env h
      · exact PORT_of_empty env h
    refine ⟨hp, ?_⟩
    rw [hrun, hp]
    have e1 : "Node.js Processor server is running on http://0.0.0.0:" ++ toStr (.num 8002)
        = "Node.js Processor server is running on http://0.0.0.0:8002" := by decide
    have e2 : "Health check: http://localhost:" ++ toStr (.num 8002) ++ "/health"
        = "Health check: http://localhost:8002/health" := by decide
    rw [e1, e2]

theorem listen_and_startup_log_witness :
    Process.start.status = .running ∧
    runEffects (listenCall (envWithPort none)).callback Process.start =
      { status := .running,
        stdout := [ "Node.js Processor server is running on http://0.0.0.0:8002",
                    "Health check: http://localhost:8002/health" ] } ∧
    runEffects (listenCall (envWithPort (some "9001"))).callback Process.start =
      { status := .running,
        stdout := [ "Node.js Processor server is running on http://0.0.0.0:9001",
                    "Health check: http://localhost:9001/health" ] } :=
  ⟨rfl,
    ((listen_and_startup_log (envWithPort none) Process.start rfl).2.2.2.2.2
      (Or.inl (by decide))).2,
    ((listen_and_startup_log (envWithPort (some "9001")) Process.start rfl).2.2.2.2.1
      "9001" (by decide) (by decide)).2⟩

/-- C5: for each of SIGTERM and SIGINT, the listener is one log call whose line
starts with the name of the signal, followed by exit with code 0 and nothing
else; run from the running state it appends that one line and the process
then exits with code 0. -/
theorem signal_logs_then_exits (signal : String) (p : Process)
    (hs : signal = "SIGTERM" ∨ signal = "SIGINT") (hr : p.status = .running) :
    listenerFor signal
      = some [.log (signal ++ " received, shutting down gracefully"), .exit 0] ∧
    deliverTrace signal p = some
      [ { status := .running,
          stdout := p.stdout ++ [signal ++ " received, shutting down gracefully"] },
        { status := .exited 0,
          stdout := p.stdout ++ [signal ++ " received, shutting down gracefully"] } ] ∧
    deliver signal p = some
      { status := .exited 0,
        stdout := p.stdout ++ [signal ++ " received, shutting down gracefully"] } := by
  have hl : listenerFor signal
      = some [.log (signal ++ " received, shutting down gracefully"), .exit 0] := by
    rcases hs with rfl | rfl <;> decide
  refine ⟨hl, ?_, ?_⟩
  · simp [deliverTrace, hl, runTrace, hr, Effect.step]
  · simp [deliver, hl, runEffects, hr, Effect.step]

theorem signal_logs_then_exits_witness :
    ("SIGINT" = "SIGTERM" ∨ "SIGINT" = "SIGINT") ∧ Process.start.status = .running ∧
    deliver "SIGINT" Process.start = some
      { status := .exited 0,
        stdout := Process.start.stdout ++ ["SIGINT" ++ " received, shutting down gracefully"] } :=
  ⟨Or.inr rfl, rfl, (signal_logs_then_exits "SIGINT" Process.start (Or.inr rfl) rfl).2.2⟩

/-! ## The health route -/

/-- C1 (counterexample): a GET to /health whose conditional headers are
satisfied (for instance If-None-Match: *) is dispatched to the health handler
and answered 304 with no body; a HEAD to /health is dispatched to the handler
and answered 200 with no body. -/
theorem health_response_counterexample :
    ((handle { method := .GET, path := "/health", query := "", headers := [],
               conditional := .fresh, payload := .none }).ran = ["/health"] ∧
      (handle { method := .GET, path := "/health", query := "", headers := [],
                conditional := .fresh, payload := .none }).response
        = some { statusCode := 304, allow := [], body := .empty }) ∧
    ((handle { method := .HEAD, path := "/health", query := "", headers := [],
               conditional := .absent, payload := .none }).ran = ["/health"] ∧
      (handle { method := .HEAD, path := "/health", query := "", headers := [],
                conditional := .absent, payload := .none }).response
        = some { statusCode := 200, allow := [], body := .empty }) := by
  decide

/-- C1 (amended): for every request dispatched to the handler of GET /health,
whatever its query string, body and remaining headers: when the request is not
a fresh conditional request and its method is not HEAD, the response has status
200 and its JSON body is exactly the object with code 0 and message "success";
a fresh conditional request is answered 304 with no body, and a HEAD request
that is not fresh is answered 200 with no body. -/
theorem health_response_fixed (req : Request) (h : (handle req).ran = ["/health"]) :
    (req.conditional ≠ .fresh → req.method ≠ .HEAD →
      (handle req).response = some
        { statusCode := 200, allow := [],
          body := .json [("code", .num 0), ("message", .str "success")] }) ∧
    (req.conditional ≠ .fresh → req.method = .HEAD →
      (handle req).response = some { statusCode := 200, allow := [], body := .empty }) ∧
    (req.conditional = .fresh →
      (handle req).response = some { statusCode := 304, allow := [], body := .empty }) := by
  rcases handle_ran_cases req with h0 | ⟨_, hres, _, _, hs⟩
  · rw [h0] at h; cases h
  · rw [hres]
    refine ⟨?_, ?_, ?_⟩
    · intro hc hm
      have hf : isFresh req freshRes = false := by
        cases hcv : req.conditional <;> simp_all [isFresh]
      simp only [healthHandler, Res.json, hf]
      simp [hm, freshRes]
    · intro hc hm
      have hf : isFresh req freshRes = false := by
        cases hcv : req.conditional <;> simp_all [isFresh]
      simp only [healthHandler, Res.json, hf]
      simp [hm, freshRes]
    · intro hc
      have hf : isFresh req freshRes = true := by
        cases hmv : req.method <;> simp_all [isFresh, getRouteServes, freshRes]
      simp only [healthHandler, Res.json, hf]
      simp [freshRes]

theorem health_response_fixed_witness :
    (handle { method := .GET, path := "/health", query := "verbose=1",
              headers := [("accept", "text/html")], conditional := .stale,
              payload := .other }).ran = ["/health"] ∧
    (handle { method := .GET, path := "/health", query := "verbose=1",
              headers := [("accept", "text/html")], conditional := .stale,
              payload := .other }).response = some
      { statusCode := 200, allow := [],
        body := .json [("code", .num 0), ("message", .str "success")] } :=
  ⟨by decide,
    (health_response_fixed
      { method := .GET, path := "/health", query := "verbose=1",
        headers := [("accept", "text/html")], conditional := .stale, payload := .other }
      (by decide)).1 (by decide) (by decide)⟩

/-! ## Other paths, other methods, malformed bodies -/

/-- C6 (counterexample): a POST to /other with a malformed JSON body is answered
400, not 404; a GET to /health/, a path other than /health, is answered 200 by
the health handler. -/
theorem other_path_counterexample :
    ("/other" ≠ "/health" ∧
      Option.map Res.statusCode
        (handle { method := .POST, path := "/other", query := "", headers := [],
                  conditional := .absent, payload := .json none .malformed }).response
        = some 400) ∧
    ("/health/" ≠ "/health" ∧
      Option.map Res.statusCode
        (handle { method := .GET, path := "/health/", query := "", headers := [],
                  conditional := .absent, payload := .none }).response = some 200 ∧
      (handle { method := .GET, path := "/health/", query := "", headers := [],
                conditional := .absent, payload := .none }).ran = ["/health"]) := by
  decide

/-- C6 (amended): for every request whose path the route /health does not
match (matching ignores letter case and one trailing slash), the health handler
is not run, and the response is the default not-found response with status 404
unless a body parser fails the request, in which case the status is the
client-error status (4xx) of that failure. -/
theorem unmatched_path_not_found (req : Request)
    (hp : pathMatches "/health" req.path = false) :
    (handle req).ran = [] ∧
    (parserFailure req = none →
      (handle req).response = some (defaultResponse req 404) ∧
      Option.map Res.statusCode (handle req).response = some 404) ∧
    (∀ s, parserFailure req = some s →
      Option.map Res.statusCode (handle req).response = some s ∧ 400 ≤ s ∧ s < 500) := by
  refine ⟨?_, ?_, ?_⟩
  · cases hb : parserFailure req with
    | some s => rw [handle_of_failure req s hb]
    | none => rw [handle_of_accept req hb, route_unmatched req hp]
  · intro hb
    rw [handle_of_accept req hb, route_unmatched req hp]
    exact ⟨rfl, rfl⟩
  · intro s hb
    rw [handle_of_failure req s hb]
    refine ⟨rfl, ?_⟩
    rcases parserFailure_status req s hb with h | h | h <;> omega

theorem unmatched_path_not_found_witness :
    pathMatches "/health" "/metrics" = false ∧
    (handle { method := .GET, path := "/metrics", query := "", headers := [],
              conditional := .absent, payload := .none }).ran = [] ∧
    Option.map Res.statusCode
      (handle { method := .GET, path := "/metrics", query := "", headers := [],
                conditional := .absent, payload := .none }).response = some 404 :=
  ⟨by decide,
    (unmatched_path_not_found
      { method := .GET, path := "/metrics", query := "", headers := [],
        conditional := .absent, payload := .none }
      (by decide)).1,
    ((unmatched_path_not_found
      { method := .GET, path := "/metrics", query := "", headers := [],
        conditional := .absent, payload := .none }
      (by decide)).2.1 (by decide)).2⟩

/-- C8: a request carrying a malformed JSON body is failed by the JSON body
parser with a client-error status (400, or the 413 or 415 of a rejection raised
before parsing), no handler runs, the process does not crash but stays in the
running state, and every later request is answered; a later plain GET to
/health gets the 200 health response. -/
theorem malformed_json_rejected (p : Process) (req : Request) (early : Option Rejection)
    (hr : p.status = .running) (hj : req.payload = .json early .malformed) :
    jsonParser req = .error (early.elim 400 Rejection.status) ∧
    (400 ≤ early.elim 400 Rejection.status ∧ early.elim 400 Rejection.status < 500) ∧
    handle req =
      { response := some (defaultResponse req (early.elim 400 Rejection.status)),
        ran := [] } ∧
    serve app p req = (p, some (defaultResponse req (early.elim 400 Rejection.status))) ∧
    (serve app p req).1.status = .running ∧
    (∀ later : Request, ∃ res, serve app (serve app p req).1 later = (p, some res)) ∧
    (∀ later : Request, later.method = .GET → later.path = "/health" →
      later.conditional = .absent → parserFailure later = none →
      serve app (serve app p req).1 later = (p, some
        { statusCode := 200, allow := [],
          body := .json [("code", .num 0), ("message", .str "success")] })) := by
  have hparse : jsonParser req = .error (early.elim 400 Rejection.status) := by
    cases early <;> simp [jsonParser, hj]
  have hfail : parserFailure req = some (early.elim 400 Rejection.status) := by
    simp [parserFailure, hparse]
  have hh := handle_of_failure req _ hfail
  have hs : serve app p req
      = (p, some (defaultResponse req (early.elim 400 Rejection.status))) :=
    serve_running p req _ hr (by rw [hh])
  refine ⟨hparse, ?_, hh, hs, by rw [hs]; exact hr, ?_, ?_⟩
  · rcases parserFailure_status req _ hfail with h | h | h <;> omega
  · intro later
    obtain ⟨res, hres⟩ := handle_answers later
    exact ⟨res, by rw [hs]; exact serve_running p later res hr hres⟩
  · intro later hm hpath hc hb
    rw [hs]
    apply serve_running p later _ hr
    have hmatch : pathMatches "/health" later.path = true := by rw [hpath]; decide
    have hserves : getRouteServes later.method = true := by rw [hm]; rfl
    rw [handle_of_accept later hb, route_served later hmatch hserves]
    simp [healthHandler, Res.json, isFresh, hc, hm, freshRes]

theorem malformed_json_rejected_witness :
    Process.start.status = .running ∧
    serve app Process.start
        { method := .POST, path := "/health", query := "", headers := [],
          conditional := .absent, payload := .json none .malformed }
      = (Process.start,
          some { statusCode := 400, allow := [], body := .errorPage }) ∧
    serve app
        (serve app Process.start
          { method := .POST, path := "/health", query := "", headers := [],
            conditional := .absent, payload := .json none .malformed }).1
        { method := .GET, path := "/health", query := "", headers := [],
          conditional := .absent, payload := .none }
      = (Process.start, some
          { statusCode := 200, allow := [],
            body := .json [("code", .num 0), ("message", .str "success")] }) :=
  ⟨rfl,
    (malformed_json_rejected Process.start
      { method := .POST, path := "/health", query := "", headers := [],
        conditional := .absent, payload := .json none .malformed }
      none rfl rfl).2.2.2.1,
    (malformed_json_rejected Process.start
      { method := .POST, path := "/health", query := "", headers := [],
        conditional := .absent, payload := .json none .malformed }
      none rfl rfl).2.2.2.2.2.2
      { method := .GET, path := "/health", query := "", headers := [],
        conditional := .absent, payload := .none }
      rfl rfl rfl (by decide)⟩

/-- C10 (counterexample): an OPTIONS request to /health is answered by the
router with status 200, not with 404; a POST to /health with a malformed JSON
body is answered 400, not 404. -/
theorem health_method_counterexample :
    (Method.OPTIONS ≠ Method.GET ∧ Method.OPTIONS ≠ Method.HEAD ∧
      Option.map Res.statusCode
        (handle { method := .OPTIONS, path := "/health", query := "", headers := [],
                  conditional := .absent, payload := .none }).response = some 200) ∧
    (Method.POST ≠ Method.GET ∧ Method.POST ≠ Method.HEAD ∧
      Option.map Res.statusCode
        (handle { method := .POST, path := "/health", query := "", headers := [],
                  conditional := .absent, payload := .json none .malformed }).response
        = some 400) := by
  decide

/-- C10 (amended): the route table is exactly GET /health; for every request to
/health whose method is neither GET nor HEAD the health handler is not run, and
the request falls through to the default not-found response (404) when its
method is not OPTIONS and no body parser fails it; an OPTIONS request no parser
fails is answered by the router with status 200, and a request a body parser
fails gets the client-error status (4xx) of that failure. -/
theorem health_other_methods (req : Request) (hp : req.path = "/health")
    (hg : req.method ≠ .GET) (hh : req.method ≠ .HEAD) :
    routes app = [(.GET, "/health")] ∧
    (handle req).ran = [] ∧
    (parserFailure req = none → req.method ≠ .OPTIONS →
      (handle req).response = some (defaultResponse req 404) ∧
      Option.map Res.statusCode (handle req).response = some 404) ∧
    (parserFailure req = none → req.method = .OPTIONS →
      Option.map Res.statusCode (handle req).response = some 200) ∧
    (∀ s, parserFailure req = some s →
      Option.map Res.statusCode (handle req).response = some s ∧ 400 ≤ s ∧ s < 500) := by
  have hm : pathMatches "/health" req.path = true := by rw [hp]; decide
  have hs : getRouteServes req.method = false := by
    cases hmeth : req.method <;> simp_all [getRouteServes]
  refine ⟨rfl, ?_, ?_, ?_, ?_⟩
  · rcases handle_ran_cases req with h0 | ⟨_, _, _, _, hs1⟩
    · exact h0
    · rw [hs] at hs1; cases hs1
  · intro hb ho
    rw [handle_of_accept req hb, route_other_method req hs ho]
    exact ⟨rfl, rfl⟩
  · intro hb ho
    rw [handle_of_accept req hb, route_options req hm ho]
    rfl
  · intro s hb
    rw [handle_of_failure req s hb]
    refine ⟨rfl, ?_⟩
    rcases parserFailure_status req s hb with h | h | h <;> omega

theorem health_other_methods_witness :
    ("/health" = "/health" ∧ Method.POST ≠ Method.GET ∧ Method.POST ≠ Method.HEAD) ∧
    (handle { method := .POST, path := "/health", query := "", headers := [],
              conditional := .absent, payload := .json none .container }).ran = [] ∧
    Option.map Res.statusCode
      (handle { method := .POST, path := "/health", query := "", headers := [],
                conditional := .absent, payload := .json none .container }).response
      = some 404 :=
  ⟨⟨rfl, by decide, by decide⟩,
    (health_other_methods
      { method := .POST, path := "/health", query := "", headers := [],
        conditional := .absent, payload := .json none .container }
      rfl (by decide) (by decide)).2.1,
    ((health_other_methods
      { method := .POST, path := "/health", query := "", headers := [],
        conditional := .absent, payload := .json none .container }
      rfl (by decide) (by decide)).2.2.1 (by decide) (by decide)).2⟩

end NodejsProcessor
